import Mathlib

/-!
Verification of the easycurses library core (session lifecycle, color
identity scheme, coordinate translation, input handling) against its
natural-language specification.

The embedding is shallow: the pancurses capability provider is modelled by
an explicit state (a session flag plus a trace of provider calls) and a
`Terminal` record of the provider-reported capabilities.  Rust i16 / i32
values are modelled as `Int`; the one place where the source performs a
lossy cast (`as i16`) is modelled by explicit wrapping into the i16 range.
-/

set_option maxRecDepth 4000

/-- The eight curses color constants, in source enumeration order. -/
inductive Color
  | Black
  | Red
  | Green
  | Yellow
  | Blue
  | Magenta
  | Cyan
  | White
deriving DecidableEq, Repr, Fintype

/-- Rust `{:?}` formatting of a `Color`, as produced by `derive(Debug)`. -/
def Color.debugFmt : Color → String
  | .Black => "Black"
  | .Red => "Red"
  | .Green => "Green"
  | .Yellow => "Yellow"
  | .Blue => "Blue"
  | .Magenta => "Magenta"
  | .Cyan => "Cyan"
  | .White => "White"

/-- `color_to_i16`: converts a `Color` to the i16 associated with it. -/
def color_to_i16 : Color → Int
  | .Black => 0
  | .Red => 1
  | .Green => 2
  | .Yellow => 3
  | .Blue => 4
  | .Magenta => 5
  | .Cyan => 6
  | .White => 7

/-- The slice backing `Color::color_iterator()`, in iteration order. -/
def allColors : List Color :=
  [.Black, .Red, .Green, .Yellow, .Blue, .Magenta, .Cyan, .White]

/-- The 64 (fg, bg) combinations in the order produced by the nested
`color_iterator` loops of `initialize_system` (fg outer, bg inner). -/
def allPairs : List (Color × Color) :=
  (allColors.map (fun fg => allColors.map (fun bg => (fg, bg)))).flatten

/-- `ColorPair(i16)`: a color pair identifier for a character cell. -/
structure ColorPair where
  val : Int
deriving DecidableEq, Repr

/-- `ColorPair::fgbg_pairid`: the low level conversion using i16 values. -/
def ColorPair.fgbg_pairid (fg bg : Int) : Int :=
  1 + (8 * fg + bg)

/-- `ColorPair::new`: creates a `ColorPair` from a foreground and background. -/
def ColorPair.new (fg bg : Color) : ColorPair :=
  ColorPair.mk (ColorPair.fgbg_pairid (color_to_i16 fg) (color_to_i16 bg))

/-- `impl Default for ColorPair`: white text on a black background. -/
def ColorPair.default : ColorPair :=
  ColorPair.new Color.White Color.Black

/-- `TimeoutMode`: the timeouts `get_input` can operate with. -/
inductive TimeoutMode
  | Immediate
  | WaitUpTo (ms : Int)
  | Never
deriving DecidableEq, Repr

/-- `pancurses::OK`. -/
def OK : Int := 0

/-- `pancurses::ERR`. -/
def ERR : Int := -1

/-- `to_bool`: converts the `pancurses::OK` value into `true`, and all other
values into `false`. -/
def to_bool (curses_bool : Int) : Bool :=
  curses_bool = OK

/-- Truncating cast of an i32 value into the i16 range, the semantics of the
Rust expression `n as i16`. -/
def wrapI16 (n : Int) : Int :=
  (n + 32768) % 65536 - 32768

/-- A single call into the pancurses capability provider, recorded in the
trace of the modelled process state. -/
inductive ProviderCall
  | initscr
  | hasColorsQuery
  | startColor
  | colorsQuery
  | colorPairsQuery
  | initPair (pair fg bg : Int)
  | endwin
  | timeout (ms : Int)
  | colorSet (pair : Int)
  | getch
  | resizeTerm (nlines ncols : Int)
deriving DecidableEq, Repr

/-- The provider window: extent reported by `get_max_yx` and the cursor
position reported by `get_cur_yx`. -/
structure Window where
  maxY : Int
  maxX : Int
  curY : Int
  curX : Int
deriving DecidableEq, Repr

/-- `Window::mv`: moves the cursor; out of bounds locations are ignored by
the provider and reported as `ERR`. -/
def Window.mv (w : Window) (y x : Int) : Window × Int :=
  if 0 ≤ y ∧ y < w.maxY ∧ 0 ≤ x ∧ x < w.maxX then
    ({ w with curY := y, curX := x }, OK)
  else
    (w, ERR)

/-- The provider-reported capabilities of the terminal the process runs in:
the extent `initscr` yields, whether colors are supported, the result of
`start_color()` and the `COLORS()` / `COLOR_PAIRS()` counts (i32 values). -/
structure Terminal where
  rows : Int
  cols : Int
  hasColors : Bool
  startColorResult : Int
  colorCount : Int
  pairCount : Int
deriving DecidableEq, Repr

/-- `pancurses::initscr` for a given terminal: a fresh full-extent window
with the cursor at the origin. -/
def Terminal.initscr (t : Terminal) : Window :=
  { maxY := t.rows, maxX := t.cols, curY := 0, curX := 0 }

/-- The process-wide state: the `curses_is_on` atomic flag together with the
trace of capability-provider calls performed so far. -/
structure SysState where
  curses_is_on : Bool
  trace : List ProviderCall
deriving DecidableEq, Repr

/-- The `EasyCurses` handle: the wrapped window, the cached color support
flag and the `auto_resize` policy flag. -/
structure EasyCurses where
  win : Window
  color_support : Bool
  auto_resize : Bool
deriving DecidableEq, Repr

/-- Outcome of `initialize_system`: `ok` models `Some(EasyCurses)`,
`alreadyInit` models the `None` returned when the flag was already set, and
`panicked` models unwinding out of a failed `debug_assert` (carrying the
formatted assertion message). -/
inductive InitOutcome
  | ok (handle : EasyCurses)
  | alreadyInit
  | panicked (msg : String)
deriving DecidableEq, Repr

/-- The color-pair registration loop of `initialize_system`: for each
(fg, bg) combination it evaluates the three `debug_assert` conditions (only
when debug assertions are compiled in, `dbg = true`; the comparisons cast
the i32 counts to i16 as the source does) and then calls `init_pair`.
Returns the provider calls performed and, when an assertion failed, the
panic message of the first failure. -/
def pairInitLoop (dbg : Bool) (color_count pair_count : Int) :
    List (Color × Color) → List ProviderCall × Option String
  | [] => ([], none)
  | (fg, bg) :: rest =>
    let fgi := color_to_i16 fg
    let bgi := color_to_i16 bg
    let pair_id := ColorPair.fgbg_pairid fgi bgi
    if dbg = true ∧ ¬ fgi ≤ wrapI16 color_count then
      ([], some ("Curses reported " ++ toString color_count
        ++ " color ids available, but " ++ fg.debugFmt ++ " has id " ++ toString fgi))
    else if dbg = true ∧ ¬ bgi ≤ wrapI16 color_count then
      ([], some ("Curses reported " ++ toString color_count
        ++ " color ids available, but " ++ bg.debugFmt ++ " has id " ++ toString bgi))
    else if dbg = true ∧ ¬ pair_id ≤ wrapI16 pair_count then
      ([], some ("Curses reported " ++ toString pair_count
        ++ " colorpair ids available, but " ++ fg.debugFmt ++ " on " ++ bg.debugFmt
        ++ " would be id " ++ toString pair_id))
    else
      let res := pairInitLoop dbg color_count pair_count rest
      (ProviderCall.initPair pair_id fgi bgi :: res.1, res.2)

/-- `EasyCurses::initialize_system`.  Performs the compare-and-swap on the
`curses_is_on` flag; when the flag was already set it returns `None`
(`alreadyInit`) having touched neither the flag nor the provider.
Otherwise it calls `initscr`, queries color support, and when colors are
supported registers all 64 color pairs (running the debug assertions). -/
def initialize_system (dbg : Bool) (term : Terminal) (st : SysState) :
    InitOutcome × SysState :=
  if st.curses_is_on = true then
    (InitOutcome.alreadyInit, st)
  else
    let w := Terminal.initscr term
    let color_support : Bool :=
      if term.hasColors = true then to_bool term.startColorResult else false
    let trace2 : List ProviderCall :=
      st.trace ++ [ProviderCall.initscr, ProviderCall.hasColorsQuery]
        ++ (if term.hasColors = true then [ProviderCall.startColor] else [])
    if color_support = true then
      let res := pairInitLoop dbg term.colorCount term.pairCount allPairs
      let trace3 := trace2
        ++ [ProviderCall.colorsQuery, ProviderCall.colorPairsQuery] ++ res.1
      match res.2 with
      | some msg => (InitOutcome.panicked msg, ⟨true, trace3⟩)
      | none =>
        (InitOutcome.ok ⟨w, color_support, true⟩, ⟨true, trace3⟩)
    else
      (InitOutcome.ok ⟨w, color_support, true⟩, ⟨true, trace2⟩)

/-- `impl Drop for EasyCurses`: calls `endwin` and stores `false` into the
`curses_is_on` flag. -/
def EasyCurses.drop (_e : EasyCurses) (st : SysState) : SysState :=
  ⟨false, st.trace ++ [ProviderCall.endwin]⟩

/-- `EasyCurses::move_rc`: moves the virtual cursor in top-left row/column
space via the provider `mv` call. -/
def EasyCurses.move_rc (e : EasyCurses) (row col : Int) : EasyCurses × Bool :=
  let res := e.win.mv row col
  ({ e with win := res.1 }, to_bool res.2)

/-- `EasyCurses::get_cursor_rc`: the cursor position in (row, column)
coordinates relative to the top left corner. -/
def EasyCurses.get_cursor_rc (e : EasyCurses) : Int × Int :=
  (e.win.curY, e.win.curX)

/-- `EasyCurses::move_xy`: moves the cursor in bottom-left cartesian space;
queries the live row count and delegates to the provider `mv` call with row
`row_count - (y + 1)`. -/
def EasyCurses.move_xy (e : EasyCurses) (x y : Int) : EasyCurses × Bool :=
  let row_count := e.win.maxY
  let res := e.win.mv (row_count - (y + 1)) x
  ({ e with win := res.1 }, to_bool res.2)

/-- `EasyCurses::get_cursor_xy`: the cursor position in (x, y) coordinates
relative to the bottom left corner, `(col, row_count - (row + 1))`. -/
def EasyCurses.get_cursor_xy (e : EasyCurses) : Int × Int :=
  let row_count := e.win.maxY
  (e.win.curX, row_count - (e.win.curY + 1))

/-- `EasyCurses::set_input_timeout`: issues exactly one provider `timeout`
call; `WaitUpTo(n)` clamps `n` with `n.max(0)`, `Immediate` passes 0 and
`Never` passes -1.  The source returns unit, so only the provider call is
observable. -/
def EasyCurses.set_input_timeout (_e : EasyCurses) (mode : TimeoutMode) :
    List ProviderCall :=
  match mode with
  | TimeoutMode.Immediate => [ProviderCall.timeout 0]
  | TimeoutMode.WaitUpTo n => [ProviderCall.timeout (max n 0)]
  | TimeoutMode.Never => [ProviderCall.timeout (-1)]

/-- `EasyCurses::set_color_pair`: calls the provider `color_set` only when
the cached `color_support` flag is set; otherwise it does nothing.  Returns
the (unchanged) handle and the provider calls performed. -/
def EasyCurses.set_color_pair (e : EasyCurses) (pair : ColorPair) :
    EasyCurses × List ProviderCall :=
  if e.color_support = true then
    (e, [ProviderCall.colorSet pair.val])
  else
    (e, [])

/-- The subset of `pancurses::Input` events the library inspects: the code
distinguishes only `KeyResize` from everything else, so the remaining
variants are represented by `Character` and `Unknown`. -/
inductive Input
  | KeyResize
  | Character (c : Char)
  | Unknown (code : Int)
deriving DecidableEq, Repr

/-- `EasyCurses::resize`: delegates to `pancurses::resize_term`.  The
provider result code is external and passed in as `providerResult`. -/
def EasyCurses.resize (_e : EasyCurses) (new_lines new_cols : Int)
    (providerResult : Int) : Bool × List ProviderCall :=
  (to_bool providerResult, [ProviderCall.resizeTerm new_lines new_cols])

/-- `EasyCurses::get_input`: calls the provider `getch` (whose delivered
event `ev` is external input to the model); when `auto_resize` is set and
the event is `Some(KeyResize)` it additionally calls `resize(0, 0)` before
returning; the retrieved event is returned to the caller unchanged. -/
def EasyCurses.get_input (e : EasyCurses) (ev : Option Input) :
    Option Input × List ProviderCall :=
  let extra : List ProviderCall :=
    if e.auto_resize = true then
      match ev with
      | some Input.KeyResize => [ProviderCall.resizeTerm 0 0]
      | _ => []
    else []
  (ev, ProviderCall.getch :: extra)

/-- A panic payload carried by unwinding: a `&str`, a `String`, or any
other (non-textual) payload. -/
inductive PanicPayload
  | strPayload (s : String)
  | stringPayload (s : String)
  | nonText
deriving DecidableEq, Repr

/-- Outcome of running the user logic passed to `preserve_panic_message`:
normal completion with a value, or unwinding with a panic payload. -/
inductive UserOutcome (R : Type)
  | normal (r : R)
  | panicked (p : PanicPayload)

/-- The `map_err` downcast chain of `preserve_panic_message`: try
`downcast_ref::<&str>` first, then `downcast_ref::<String>`, else `None`. -/
def downcastPanicMessage : PanicPayload → Option String
  | PanicPayload.strPayload s => some s
  | PanicPayload.stringPayload s => some s
  | PanicPayload.nonText => none

/-- `preserve_panic_message`: runs `initialize_system` and the user logic
inside `catch_unwind`.  The user logic is abstracted by the outcome it
produces from the handle it is given.  When initialization returns `None`
the `expect` call panics with the double-initialization message (caught by
`catch_unwind`; no handle exists, so no teardown runs); when a debug
assertion inside initialization panics, the unwinding likewise happens
before the handle is constructed.  On both normal completion and a user
panic the handle is dropped (teardown) before the result is built. -/
def preserve_panic_message {R : Type} (dbg : Bool) (term : Terminal)
    (st : SysState) (user_function : EasyCurses → UserOutcome R) :
    Except (Option String) R × SysState :=
  match initialize_system dbg term st with
  | (InitOutcome.alreadyInit, st2) =>
    (Except.error (downcastPanicMessage
      (PanicPayload.stringPayload "Curses double-initialization.")), st2)
  | (InitOutcome.panicked msg, st2) =>
    (Except.error (downcastPanicMessage (PanicPayload.stringPayload msg)), st2)
  | (InitOutcome.ok easy, st2) =>
    match user_function easy with
    | UserOutcome.normal r => (Except.ok r, easy.drop st2)
    | UserOutcome.panicked p =>
      (Except.error (downcastPanicMessage p), easy.drop st2)

/-- The condition under which no `debug_assert` in the registration loop of
`initialize_system` can fire: either debug assertions are compiled out, or
the i16 truncations of the provider-reported color and pair counts are at
least 8 and 64 respectively. -/
def assertsUnreachable (dbg : Bool) (term : Terminal) : Prop :=
  dbg = false ∨ (8 ≤ wrapI16 term.colorCount ∧ 64 ≤ wrapI16 term.pairCount)

instance (dbg : Bool) (term : Terminal) : Decidable (assertsUnreachable dbg term) := by
  unfold assertsUnreachable
  infer_instance

/-- Every (fg, bg) combination in the registration order has color indices
at most 7 and pair identifier at most 64. -/
lemma allPairs_bounds : ∀ p ∈ allPairs,
    color_to_i16 p.1 ≤ 7 ∧ color_to_i16 p.2 ≤ 7 ∧
      ColorPair.fgbg_pairid (color_to_i16 p.1) (color_to_i16 p.2) ≤ 64 := by
  decide

/-- If debug assertions are compiled out, or the truncated provider counts
are at least 8 colors and 64 pairs, the registration loop never hits an
assertion failure. -/
lemma pairInitLoop_snd_none (dbg : Bool) (cc pc : Int)
    (h : dbg = false ∨ (8 ≤ wrapI16 cc ∧ 64 ≤ wrapI16 pc))
    (l : List (Color × Color))
    (hl : ∀ p ∈ l, color_to_i16 p.1 ≤ 7 ∧ color_to_i16 p.2 ≤ 7 ∧
      ColorPair.fgbg_pairid (color_to_i16 p.1) (color_to_i16 p.2) ≤ 64) :
    (pairInitLoop dbg cc pc l).2 = none := by
  induction l with
  | nil => rfl
  | cons hd tl ih =>
    obtain ⟨fg, bg⟩ := hd
    have h1 := hl (fg, bg) (List.mem_cons_self _ _)
    have ih2 := ih (fun p hp => hl p (List.mem_cons_of_mem _ hp))
    rcases h with hdbg | ⟨hcc, hpc⟩
    · subst hdbg
      simpa [pairInitLoop] using ih2
    · have c1 : color_to_i16 fg ≤ wrapI16 cc := le_trans h1.1 (by omega)
      have c2 : color_to_i16 bg ≤ wrapI16 cc := le_trans h1.2.1 (by omega)
      have c3 : ColorPair.fgbg_pairid (color_to_i16 fg) (color_to_i16 bg) ≤ wrapI16 pc :=
        le_trans h1.2.2 (by omega)
      simp [pairInitLoop, c1, c2, c3, ih2]

/-- When the session flag is off and no assertion can fire, initialization
succeeds: it returns a handle and turns the flag on. -/
lemma initialize_system_ok_exists (dbg : Bool) (term : Terminal) (st : SysState)
    (h1 : st.curses_is_on = false) (h2 : assertsUnreachable dbg term) :
    ∃ e tr, initialize_system dbg term st = (InitOutcome.ok e, ⟨true, tr⟩) := by
  have hpl : (pairInitLoop dbg term.colorCount term.pairCount allPairs).2 = none :=
    pairInitLoop_snd_none dbg term.colorCount term.pairCount h2 allPairs allPairs_bounds
  unfold initialize_system
  rw [h1]
  by_cases hc : (if term.hasColors = true then to_bool term.startColorResult else false) = true
  · simp only [Bool.false_eq_true, if_false, hc, if_true]
    rcases hE : pairInitLoop dbg term.colorCount term.pairCount allPairs with ⟨calls, p⟩
    rw [hE] at hpl
    simp only at hpl
    subst hpl
    exact ⟨_, _, rfl⟩
  · simp only [Bool.false_eq_true, if_false, hc]
    exact ⟨_, _, rfl⟩

/-- A color terminal fixture reporting the minimum standard capabilities
(8 colors, 64 pairs), used to instantiate theorems at concrete inputs. -/
def stdTerminal : Terminal :=
  { rows := 24, cols := 80, hasColors := true, startColorResult := 0,
    colorCount := 8, pairCount := 64 }

/-- The process state with the session flag off and an empty trace. -/
def offState : SysState := ⟨false, []⟩

/-- A process state in which a session is already live. -/
def onState : SysState := ⟨true, []⟩

/-- A concrete handle fixture. -/
def stdHandle : EasyCurses :=
  { win := { maxY := 24, maxX := 80, curY := 0, curX := 0 },
    color_support := true, auto_resize := true }

/-- Claim C1, counterexample: the identifier of the default color pair is
57 under the formula 1 + 8*fg + bg with White = 7, Black = 0; it is not the
value 1 stated by the claim. -/
theorem colorpair_default_val_counterexample :
    ColorPair.default.val = 57 ∧ ColorPair.default.val ≠ 1 := by decide

/-- Claim C1 (amended): ColorPair default equals ColorPair new White Black,
that is the pair identifier 1 + 8*index(White) + index(Black) = 57 under
the index order Black = 0 .. White = 7, and it is distinct from the
provider reserved pair identifier 0. -/
theorem colorpair_default_spec :
    ColorPair.default = ColorPair.new Color.White Color.Black ∧
    ColorPair.default.val
      = 1 + 8 * color_to_i16 Color.White + color_to_i16 Color.Black ∧
    ColorPair.default.val = 57 ∧
    ColorPair.default.val ≠ 0 := by decide

/-- Claim C3: for every foreground and background in the 8-color set the
identifier of ColorPair new fg bg equals 1 + 8*index(fg) + index(bg), lies
in the interval from 1 to 64, and the map from the 64 combinations to
identifiers is injective. -/
theorem colorpair_new_bijection :
    (∀ fg bg : Color,
      (ColorPair.new fg bg).val = 1 + 8 * color_to_i16 fg + color_to_i16 bg ∧
      1 ≤ (ColorPair.new fg bg).val ∧ (ColorPair.new fg bg).val ≤ 64) ∧
    (∀ fg bg fg2 bg2 : Color,
      ColorPair.new fg bg = ColorPair.new fg2 bg2 → fg = fg2 ∧ bg = bg2) := by
  decide

/-- Witness for C3: the injectivity implication applied at a concrete pair
of inputs. -/
theorem colorpair_new_bijection_witness :
    Color.Green = Color.Green ∧ Color.Cyan = Color.Cyan :=
  colorpair_new_bijection.2 Color.Green Color.Cyan Color.Green Color.Cyan rfl

/-- Claim C2: while a session is live a second initialize_system call
returns the already-initialized signal with no provider call and no state
change; after the handle is dropped (flag reset to false) a subsequent
initialization succeeds. -/
theorem initialize_system_singleton (dbg : Bool) (term : Terminal)
    (st st2 : SysState) (e : EasyCurses)
    (hon : st.curses_is_on = true) (hterm : assertsUnreachable dbg term) :
    initialize_system dbg term st = (InitOutcome.alreadyInit, st) ∧
    (EasyCurses.drop e st2).curses_is_on = false ∧
    ∃ h2, (initialize_system dbg term (EasyCurses.drop e st2)).1
      = InitOutcome.ok h2 := by
  refine ⟨?_, rfl, ?_⟩
  · unfold initialize_system
    rw [hon]
    simp
  · obtain ⟨e2, tr, hEq⟩ :=
      initialize_system_ok_exists dbg term (EasyCurses.drop e st2) rfl hterm
    exact ⟨e2, by rw [hEq]⟩

/-- Witness for C2 at a live session, the standard terminal and a concrete
handle. -/
theorem initialize_system_singleton_witness :
    initialize_system true stdTerminal onState
      = (InitOutcome.alreadyInit, onState) ∧
    (EasyCurses.drop stdHandle onState).curses_is_on = false ∧
    ∃ h2, (initialize_system true stdTerminal
      (EasyCurses.drop stdHandle onState)).1 = InitOutcome.ok h2 :=
  initialize_system_singleton true stdTerminal onState onState stdHandle rfl
    (by decide)

/-- Claim C9: every handle produced by a successful initialize_system has
the auto resize policy flag set to true. -/
theorem initialize_system_auto_resize_default (dbg : Bool) (term : Terminal)
    (st st2 : SysState) (e : EasyCurses)
    (h : initialize_system dbg term st = (InitOutcome.ok e, st2)) :
    e.auto_resize = true := by
  unfold initialize_system at h
  split at h
  · simp at h
  · dsimp only at h
    repeat' split at h
    all_goals
      simp only [Prod.mk.injEq, InitOutcome.ok.injEq, reduceCtorEq,
        false_and] at h
    all_goals
      obtain ⟨rfl, -⟩ := h
    all_goals rfl

/-- A terminal without color support, used for concrete instantiation. -/
def noColorTerminal : Terminal :=
  { rows := 24, cols := 80, hasColors := false, startColorResult := 0,
    colorCount := 0, pairCount := 0 }

/-- Witness for C9: a concrete successful initialization on a terminal
without color support. -/
theorem initialize_system_auto_resize_witness :
    ({ win := { maxY := 24, maxX := 80, curY := 0, curX := 0 },
       color_support := false, auto_resize := true } : EasyCurses).auto_resize
      = true :=
  initialize_system_auto_resize_default false noColorTerminal offState
    ⟨true, [ProviderCall.initscr, ProviderCall.hasColorsQuery]⟩
    { win := { maxY := 24, maxX := 80, curY := 0, curX := 0 },
      color_support := false, auto_resize := true }
    (by decide)

/-- Claim C10: when the cached color support flag is false, set_color_pair
performs no provider call and leaves the handle unchanged, for every color
pair argument. -/
theorem set_color_pair_no_color_support (e : EasyCurses) (pair : ColorPair)
    (h : e.color_support = false) :
    EasyCurses.set_color_pair e pair = (e, []) := by
  unfold EasyCurses.set_color_pair
  rw [h]
  simp

/-- A handle whose cached color support flag is false. -/
def noColorHandle : EasyCurses :=
  { win := { maxY := 24, maxX := 80, curY := 0, curX := 0 },
    color_support := false, auto_resize := true }

/-- Witness for C10 at a concrete handle and pair. -/
theorem set_color_pair_no_color_support_witness :
    EasyCurses.set_color_pair noColorHandle (ColorPair.mk 5)
      = (noColorHandle, []) :=
  set_color_pair_no_color_support noColorHandle (ColorPair.mk 5) rfl

/-- Claim C7: set_input_timeout clamps every nonpositive WaitUpTo value to
0, so any WaitUpTo n with n at most 0 (in particular WaitUpTo (-5)) issues
the same provider timeout call as WaitUpTo 0; and for every mode it
performs exactly one timeout call and signals no failure (its only
observable effect is that call). -/
theorem set_input_timeout_clamp (e : EasyCurses) :
    (∀ n : Int, n ≤ 0 →
      EasyCurses.set_input_timeout e (TimeoutMode.WaitUpTo n)
        = EasyCurses.set_input_timeout e (TimeoutMode.WaitUpTo 0)) ∧
    EasyCurses.set_input_timeout e (TimeoutMode.WaitUpTo (-5))
      = EasyCurses.set_input_timeout e (TimeoutMode.WaitUpTo 0) ∧
    ∀ mode : TimeoutMode, ∃ ms : Int,
      EasyCurses.set_input_timeout e mode = [ProviderCall.timeout ms] := by
  refine ⟨?_, ?_, ?_⟩
  · intro n hn
    simp only [EasyCurses.set_input_timeout]
    rw [max_eq_right hn]
    norm_num
  · unfold EasyCurses.set_input_timeout
    norm_num
  · intro mode
    cases mode <;> exact ⟨_, rfl⟩

/-- Witness for C7: the universal clamping conjunct applied at a concrete
handle and the concrete negative value -7. -/
theorem set_input_timeout_clamp_witness :
    EasyCurses.set_input_timeout stdHandle (TimeoutMode.WaitUpTo (-7))
      = EasyCurses.set_input_timeout stdHandle (TimeoutMode.WaitUpTo 0) :=
  (set_input_timeout_clamp stdHandle).1 (-7) (by decide)

/-- Claim C6: get_input returns the retrieved event unchanged, and issues
the provider resize call with auto-detected dimensions (0, 0) exactly when
auto resize is enabled and the event is a resize notification; otherwise
the only provider call is the input poll itself. -/
theorem get_input_auto_resize_spec (e : EasyCurses) (ev : Option Input) :
    (EasyCurses.get_input e ev).1 = ev ∧
    (EasyCurses.get_input e ev).2 =
      (if e.auto_resize = true ∧ ev = some Input.KeyResize then
        [ProviderCall.getch, ProviderCall.resizeTerm 0 0]
      else [ProviderCall.getch]) := by
  refine ⟨rfl, ?_⟩
  unfold EasyCurses.get_input
  by_cases ha : e.auto_resize = true
  · simp only [ha, true_and, if_true]
    cases ev with
    | none => simp
    | some i => cases i <;> simp
  · simp [ha]

/-- Claim C4: within bounds, the rc-to-xy conversion of get_cursor_xy and
the xy-to-rc conversion of move_xy are mutually inverse: reading the
cursor (row, col) as cartesian (x, y) and moving to that (x, y) lands the
cursor back on (row, col), and the move succeeds. -/
theorem coordinate_roundtrip (e : EasyCurses) (row col : Int)
    (h1 : 0 ≤ row) (h2 : row < e.win.maxY) (h3 : 0 ≤ col) (h4 : col < e.win.maxX)
    (h5 : e.win.curY = row) (h6 : e.win.curX = col) :
    EasyCurses.get_cursor_rc
      (EasyCurses.move_xy e (EasyCurses.get_cursor_xy e).1
        (EasyCurses.get_cursor_xy e).2).1 = (row, col) ∧
    (EasyCurses.move_xy e (EasyCurses.get_cursor_xy e).1
      (EasyCurses.get_cursor_xy e).2).2 = true := by
  obtain ⟨⟨mY, mX, cY, cX⟩, cs, ar⟩ := e
  simp only [EasyCurses.get_cursor_rc, EasyCurses.move_xy,
    EasyCurses.get_cursor_xy, Window.mv] at h1 h2 h3 h4 h5 h6 ⊢
  rw [h5, h6]
  rw [show mY - (mY - (row + 1) + 1) = row from by omega]
  rw [if_pos ⟨h1, h2, h3, h4⟩]
  exact ⟨rfl, rfl⟩

/-- Witness for C4 at a concrete handle with the cursor at the origin. -/
theorem coordinate_roundtrip_witness :
    EasyCurses.get_cursor_rc
      (EasyCurses.move_xy stdHandle (EasyCurses.get_cursor_xy stdHandle).1
        (EasyCurses.get_cursor_xy stdHandle).2).1 = (0, 0) ∧
    (EasyCurses.move_xy stdHandle (EasyCurses.get_cursor_xy stdHandle).1
      (EasyCurses.get_cursor_xy stdHandle).2).2 = true :=
  coordinate_roundtrip stdHandle 0 0 (by decide) (by decide) (by decide)
    (by decide) rfl rfl

/-- Claim C5: when no session is live and the terminal capabilities cannot
trip an assertion, preserve_panic_message forwards a normal return value,
carries the text of a str or String panic payload, signals none for a
non-textual payload, and in every case leaves the session flag off so an
immediately following initialization succeeds. -/
theorem preserve_panic_message_spec {R : Type} (dbg : Bool) (term : Terminal)
    (st : SysState) (o : UserOutcome R)
    (h1 : st.curses_is_on = false) (h2 : assertsUnreachable dbg term) :
    (preserve_panic_message dbg term st (fun _ => o)).2.curses_is_on = false ∧
    (∃ h, (initialize_system dbg term
        (preserve_panic_message dbg term st (fun _ => o)).2).1
      = InitOutcome.ok h) ∧
    (preserve_panic_message dbg term st (fun _ => o)).1 =
      (match o with
       | UserOutcome.normal r => Except.ok r
       | UserOutcome.panicked (PanicPayload.strPayload s) =>
         Except.error (some s)
       | UserOutcome.panicked (PanicPayload.stringPayload s) =>
         Except.error (some s)
       | UserOutcome.panicked PanicPayload.nonText => Except.error none) := by
  obtain ⟨e0, tr, hEq⟩ := initialize_system_ok_exists dbg term st h1 h2
  unfold preserve_panic_message
  rw [hEq]
  cases o with
  | normal r =>
    refine ⟨rfl, ?_, rfl⟩
    obtain ⟨e2, tr2, hEq2⟩ :=
      initialize_system_ok_exists dbg term (e0.drop ⟨true, tr⟩) rfl h2
    exact ⟨e2, by rw [hEq2]⟩
  | panicked p =>
    refine ⟨rfl, ?_, ?_⟩
    · obtain ⟨e2, tr2, hEq2⟩ :=
        initialize_system_ok_exists dbg term (e0.drop ⟨true, tr⟩) rfl h2
      exact ⟨e2, by rw [hEq2]⟩
    · cases p <;> rfl

/-- Witness for C5: user logic that panics with the str payload "oh no" on
the standard terminal; the wrapper reports exactly that text, the flag is
off afterwards, and re-initialization succeeds. -/
theorem preserve_panic_message_spec_witness :
    (preserve_panic_message true stdTerminal offState
      (fun _ => (UserOutcome.panicked (PanicPayload.strPayload "oh no")
        : UserOutcome Nat))).2.curses_is_on = false ∧
    (∃ h, (initialize_system true stdTerminal
        (preserve_panic_message true stdTerminal offState
          (fun _ => (UserOutcome.panicked (PanicPayload.strPayload "oh no")
            : UserOutcome Nat))).2).1
      = InitOutcome.ok h) ∧
    (preserve_panic_message true stdTerminal offState
      (fun _ => (UserOutcome.panicked (PanicPayload.strPayload "oh no")
        : UserOutcome Nat))).1 = Except.error (some "oh no") :=
  preserve_panic_message_spec true stdTerminal offState
    (UserOutcome.panicked (PanicPayload.strPayload "oh no")) rfl (by decide)

/-- Claim C8 (amended): the three debug assertions of the registration loop
are evaluated only when debug assertions are compiled in, and the
assertion-failure branch is unreachable provided the i16 truncations of
the provider-reported color and pair counts are at least 8 and 64 (the
source compares the i16 color and pair identifiers against the i32 counts
cast to i16). -/
theorem initialize_system_assert_unreachable (dbg : Bool) (term : Terminal)
    (st : SysState) (m : String) (h : assertsUnreachable dbg term) :
    (initialize_system dbg term st).1 ≠ InitOutcome.panicked m := by
  intro hcon
  by_cases hon : st.curses_is_on = true
  · unfold initialize_system at hcon
    rw [hon] at hcon
    simp at hcon
  · have hoff : st.curses_is_on = false := by
      revert hon
      cases st.curses_is_on <;> simp
    obtain ⟨e, tr, hEq⟩ := initialize_system_ok_exists dbg term st hoff h
    rw [hEq] at hcon
    simp at hcon

/-- Witness for C8 at the standard terminal with debug assertions on. -/
theorem initialize_system_assert_unreachable_witness :
    (initialize_system true stdTerminal offState).1
      ≠ InitOutcome.panicked "boom" :=
  initialize_system_assert_unreachable true stdTerminal offState "boom"
    (by decide)

/-- A terminal whose i32 color and pair counts exceed the i16 range: both
counts are far above the 8-color / 64-pair minimum, yet their i16
truncation is 1. -/
def overflowTerminal : Terminal :=
  { rows := 24, cols := 80, hasColors := true, startColorResult := 0,
    colorCount := 65537, pairCount := 65537 }

/-- Claim C8, counterexample: with a provider reporting 65537 colors and
65537 pairs (at least 8 and at least 64), a debug-assertions build still
reaches the assertion-failure branch during initialization, because the
comparison casts the i32 counts to i16 (truncating 65537 to 1). -/
theorem initialize_system_assert_counterexample :
    8 ≤ overflowTerminal.colorCount ∧ 64 ≤ overflowTerminal.pairCount ∧
    (initialize_system true overflowTerminal offState).1
      = InitOutcome.panicked
        "Curses reported 65537 colorpair ids available, but Black on Red would be id 2" := by
  refine ⟨by decide, by decide, by decide⟩
